import Mathlib

/-!
# Verification of the N0body chat-assistant backend

Shallow embedding, in Lean 4, of the parts of the repository that the
behavioural claims talk about:

* `DocumentVectorizer._chunk_text` (src/be_ai/core/AIssistance/AIssistance.py),
  the fixed-window text chunker;
* the `TitleDB` / `ChatDB` / `ContextDB` persistence layer
  (src/be_ai/core/MongoDB/db.py) with its cascading delete;
* the Flask message service (src/backend/app.py): `create_message` and
  `search_messages`;
* `GeminiService.get_response` (src/backend/gemini_service.py) and its
  mode-specific failure fallbacks.

Python strings are modelled as `List Char`; Python `datetime` values as `Nat`
tick counts; generated UUIDs and clock reads are passed in as explicit
arguments, making every operation a pure function of its inputs.
-/

namespace N0body

/-- Python strings are modelled as lists of characters. -/
abbrev Str := List Char

/-! ## Text chunking — `DocumentVectorizer._chunk_text`

```python
def _chunk_text(self, text, chunk_size=1000, chunk_overlap=200):
    chunks = []
    start = 0
    while start < len(text):
        end = start + chunk_size
        chunk = text[start:end]
        if chunk.strip():
            chunks.append(chunk)
        start += chunk_size - chunk_overlap
    return chunks
```

The `while` loop has no guard on `chunk_size - chunk_overlap`; when the step
is not positive it never terminates.  We embed it as a fuel-indexed recursion:
`none` means the given fuel was exhausted before the loop finished.  Natural
subtraction makes the step `0` exactly when `chunk_overlap ≥ chunk_size`,
which reproduces the source's non-termination in those cases. -/

/-- `chunk.strip()` is truthy iff the chunk has a non-whitespace character. -/
def stripNonempty (chunk : Str) : Bool :=
  chunk.any (fun c => !c.isWhitespace)

/-- One Python slice `text[start:end]` with `0 ≤ start ≤ end`. -/
def pySlice (text : Str) (start stop : Nat) : Str :=
  (text.drop start).take (stop - start)

/-- The body of `_chunk_text`'s `while` loop, indexed by fuel. -/
def chunkTextLoop (fuel : Nat) (text : Str) (chunk_size chunk_overlap start : Nat) :
    Option (List Str) :=
  match fuel with
  | 0 => none
  | fuel + 1 =>
    if start < text.length then
      let chunk := pySlice text start (start + chunk_size)
      match chunkTextLoop fuel text chunk_size chunk_overlap
          (start + (chunk_size - chunk_overlap)) with
      | none => none
      | some rest => some (if stripNonempty chunk then chunk :: rest else rest)
    else
      some []

/-- `_chunk_text(text, chunk_size, chunk_overlap)`, run with enough fuel for
every terminating execution (`text.length + 1` iterations suffice whenever the
step is positive). -/
def chunk_text (text : Str) (chunk_size chunk_overlap : Nat) : Option (List Str) :=
  chunkTextLoop (text.length + 1) text chunk_size chunk_overlap 0

/-- The loop diverges on this input: no amount of fuel finishes it. -/
def divergesAt (text : Str) (chunk_size chunk_overlap : Nat) : Prop :=
  ∀ fuel, chunkTextLoop fuel text chunk_size chunk_overlap 0 = none

/-- Ceiling division on naturals, `⌈a / b⌉`. -/
def ceilDiv (a b : Nat) : Nat := (a + b - 1) / b

/-- Reassembly of a chunk list as claimed by the spec: first chunk whole,
each later chunk with its first `overlap` characters dropped. -/
def reassemble (overlap : Nat) : List Str → Str
  | [] => []
  | c :: cs => c ++ (cs.map (fun d => d.drop overlap)).flatten

/-! ### Chunking lemmas -/

lemma pySlice_window (text : Str) (start size : Nat) :
    pySlice text start (start + size) = (text.drop start).take size := by
  unfold pySlice
  congr 1
  omega

lemma ceilDiv_of_pos (n s : Nat) (hs : 0 < s) (hn : 0 < n) :
    ceilDiv n s = (n - 1) / s + 1 := by
  unfold ceilDiv
  have h1 : n + s - 1 = (n - 1) + s := by omega
  rw [h1, Nat.add_div_right _ hs]

lemma ceilDiv_zero (s : Nat) (hs : 0 < s) : ceilDiv 0 s = 0 := by
  unfold ceilDiv
  exact Nat.div_eq_of_lt (by omega)

lemma ceilDiv_rec (n s : Nat) (hs : 0 < s) (hn : 0 < n) :
    ceilDiv n s = ceilDiv (n - s) s + 1 := by
  rw [ceilDiv_of_pos n s hs hn]
  by_cases hns : n ≤ s
  · have h2 : n - s = 0 := by omega
    rw [h2, ceilDiv_zero s hs]
    have h4 : (n - 1) / s = 0 := Nat.div_eq_of_lt (by omega)
    rw [h4]
  · rw [ceilDiv_of_pos (n - s) s hs (by omega)]
    have h3 : n - 1 = (n - s - 1) + s := by omega
    rw [h3, Nat.add_div_right _ hs]

lemma stripNonempty_window (text : Str) (size start : Nat)
    (hsize : 0 < size) (hs : start < text.length)
    (hws : ∀ c ∈ text, c.isWhitespace = false) :
    stripNonempty (pySlice text start (start + size)) = true := by
  rw [pySlice_window]
  have hne : (text.drop start).take size ≠ [] := by
    intro hnil
    have := congrArg List.length hnil
    simp [List.length_take, List.length_drop] at this
    omega
  obtain ⟨c, hc⟩ := List.exists_mem_of_ne_nil _ hne
  have hct : c ∈ text := List.drop_subset _ _ (List.take_subset _ _ hc)
  unfold stripNonempty
  rw [List.any_eq_true]
  exact ⟨c, hc, by rw [hws c hct]; rfl⟩

lemma chunkTextLoop_isSome (text : Str) (size overlap : Nat) (hov : overlap < size) :
    ∀ fuel start, text.length - start < fuel →
      (chunkTextLoop fuel text size overlap start).isSome = true := by
  intro fuel
  induction fuel with
  | zero => intro start h; omega
  | succ fuel ih =>
    intro start h
    by_cases hs : start < text.length
    · have hrec := ih (start + (size - overlap)) (by omega)
      simp only [chunkTextLoop, if_pos hs]
      cases hcall : chunkTextLoop fuel text size overlap (start + (size - overlap)) with
      | none => rw [hcall] at hrec; simp at hrec
      | some rest => simp
    · simp only [chunkTextLoop, if_neg hs, Option.isSome_some]

lemma chunkTextLoop_eq_windows (text : Str) (size overlap : Nat) (hov : overlap < size)
    (hws : ∀ c ∈ text, c.isWhitespace = false) :
    ∀ fuel start, text.length - start < fuel →
      chunkTextLoop fuel text size overlap start =
        some ((List.range (ceilDiv (text.length - start) (size - overlap))).map
          (fun i => (text.drop (start + i * (size - overlap))).take size)) := by
  intro fuel
  induction fuel with
  | zero => intro start h; omega
  | succ fuel ih =>
    intro start h
    by_cases hs : start < text.length
    · have hrec := ih (start + (size - overlap)) (by omega)
      have hchunk := stripNonempty_window text size start (by omega) hs hws
      simp only [chunkTextLoop, if_pos hs]
      rw [hrec, hchunk]
      have hcount : ceilDiv (text.length - start) (size - overlap)
          = ceilDiv (text.length - (start + (size - overlap))) (size - overlap) + 1 := by
        have heq : text.length - (start + (size - overlap))
            = (text.length - start) - (size - overlap) := by omega
        rw [heq]
        exact ceilDiv_rec _ _ (by omega) (by omega)
      rw [hcount, List.range_succ_eq_map, List.map_cons, List.map_map]
      simp only [if_true]
      congr 1
      congr 1
      · rw [pySlice_window]
        simp
      · refine List.map_congr_left (fun i _ => ?_)
        have harg : start + (Nat.succ i) * (size - overlap)
            = start + (size - overlap) + i * (size - overlap) := by
          rw [Nat.succ_mul]; omega
        simp only [Function.comp]
        rw [harg]
    · simp only [chunkTextLoop, if_neg hs]
      have h0 : text.length - start = 0 := by omega
      rw [h0, ceilDiv_zero _ (by omega), List.range_zero, List.map_nil]

lemma chunkTextLoop_reassemble (text : Str) (size overlap : Nat) (hov : overlap < size)
    (hws : ∀ c ∈ text, c.isWhitespace = false) :
    ∀ fuel start cs, chunkTextLoop fuel text size overlap start = some cs →
      (cs.map (fun d => d.drop overlap)).flatten = text.drop (start + overlap) := by
  intro fuel
  induction fuel with
  | zero => intro start cs h; simp [chunkTextLoop] at h
  | succ fuel ih =>
    intro start cs h
    by_cases hs : start < text.length
    · simp only [chunkTextLoop, if_pos hs] at h
      cases hcall : chunkTextLoop fuel text size overlap (start + (size - overlap)) with
      | none => rw [hcall] at h; simp at h
      | some rest =>
        rw [hcall] at h
        have hchunk := stripNonempty_window text size start (by omega) hs hws
        rw [hchunk] at h
        simp only [if_true, Option.some.injEq] at h
        subst h
        have hrec := ih (start + (size - overlap)) rest hcall
        simp only [List.map_cons, List.flatten_cons]
        rw [hrec]
        rw [pySlice_window, List.drop_take, List.drop_drop]
        have h1 : text.drop (start + (size - overlap) + overlap)
            = (text.drop (start + overlap)).drop (size - overlap) := by
          rw [List.drop_drop]
          congr 1
          omega
        rw [h1]
        exact List.take_append_drop _ _
    · simp only [chunkTextLoop, if_neg hs, Option.some.injEq] at h
      subst h
      simp only [List.map_nil, List.flatten_nil]
      exact (List.drop_eq_nil_of_le (by omega)).symm

lemma chunkTextLoop_none_of_overlap_ge (text : Str) (size overlap : Nat)
    (hov : size ≤ overlap) (hne : text ≠ []) :
    ∀ fuel, chunkTextLoop fuel text size overlap 0 = none := by
  intro fuel
  induction fuel with
  | zero => rfl
  | succ fuel ih =>
    have hs : 0 < text.length := List.length_pos.mpr hne
    have hstep : size - overlap = 0 := by omega
    simp only [chunkTextLoop, if_pos hs, hstep, Nat.add_zero, ih]

/-! ### Claims about chunking -/

/-- C10: for every text and parameters with `chunk_overlap < chunk_size`, the
chunking loop terminates — the window start strictly increases by
`chunk_size - chunk_overlap` each iteration, so `text.length + 1` iterations
of fuel always suffice and the embedded loop returns a result. -/
theorem chunk_text_terminates (text : Str) (size overlap : Nat) (hov : overlap < size) :
    (chunk_text text size overlap).isSome = true :=
  chunkTextLoop_isSome text size overlap hov (text.length + 1) 0 (by omega)

theorem chunk_text_terminates_witness :
    1 < 2 ∧ (chunk_text "abc".data 2 1).isSome = true :=
  ⟨by decide, chunk_text_terminates "abc".data 2 1 (by decide)⟩

/-- C2 fails as stated: on `text = "abcde"`, `window = 4`, `overlap = 2` the
code produces 3 chunks of lengths `[4, 3, 1]`, while the claimed count
`ceil((L - O) / (W - O)) = ceil(3 / 2)` is 2, and the middle chunk has length
3 ≠ W even though it is not the last chunk. -/
theorem chunk_text_c2_counterexample :
    (chunk_text "abcde".data 4 2).map (fun cs => cs.map List.length) = some [4, 3, 1] ∧
    ceilDiv ("abcde".data.length - 2) (4 - 2) = 2 := by
  decide

/-- C2 amended: for text made of non-whitespace characters and
`overlap < window`, the chunker produces exactly `ceil(L / (W - O))` chunks,
and the `i`-th chunk has length `min W (L - i*(W - O))` — so a chunk is
shorter than `W` exactly when its window runs past the end of the text. -/
theorem chunk_text_count_and_lengths (text : Str) (size overlap : Nat)
    (hov : overlap < size) (hws : ∀ c ∈ text, c.isWhitespace = false) :
    ∃ cs, chunk_text text size overlap = some cs ∧
      cs.length = ceilDiv text.length (size - overlap) ∧
      ∀ i (hi : i < cs.length),
        (cs.get ⟨i, hi⟩).length = min size (text.length - i * (size - overlap)) := by
  have hmain := chunkTextLoop_eq_windows text size overlap hov hws
    (text.length + 1) 0 (by omega)
  refine ⟨_, hmain, ?_, ?_⟩
  · simp
  · intro i hi
    simp only [List.length_map, List.length_range] at hi
    simp [List.get_eq_getElem, List.getElem_map, List.getElem_range,
      List.length_take, List.length_drop]

theorem chunk_text_count_and_lengths_witness :
    (1 < 2 ∧ ∀ c ∈ "abc".data, c.isWhitespace = false) ∧
    (∃ cs, chunk_text "abc".data 2 1 = some cs ∧
      cs.length = ceilDiv "abc".data.length (2 - 1) ∧
      ∀ i (hi : i < cs.length),
        (cs.get ⟨i, hi⟩).length = min 2 ("abc".data.length - i * (2 - 1))) :=
  ⟨⟨by decide, by decide⟩,
    chunk_text_count_and_lengths "abc".data 2 1 (by decide) (by decide)⟩

/-- C6 fails as stated: whitespace-only windows are dropped by the code, so on
`text = "a   b"`, `window = 2`, `overlap = 1` the produced chunks are
`["a ", " b", "b"]` and the claimed reconstruction yields `"a b"`, not the
original text. -/
theorem chunk_text_c6_counterexample :
    (chunk_text "a   b".data 2 1).map (reassemble 1) = some "a b".data ∧
    "a b".data ≠ "a   b".data := by
  decide

/-- C6 amended: for text made of non-whitespace characters (so no window is
dropped) and `overlap < window`, concatenating the produced chunks — first
chunk whole, each later chunk with its first `overlap` characters removed —
reconstructs the original text exactly. -/
theorem chunk_text_reassembles (text : Str) (size overlap : Nat)
    (hov : overlap < size) (hws : ∀ c ∈ text, c.isWhitespace = false)
    (cs : List Str) (hcs : chunk_text text size overlap = some cs) :
    reassemble overlap cs = text := by
  unfold chunk_text at hcs
  by_cases hne : text = []
  · subst hne
    simp only [List.length_nil, chunkTextLoop, if_neg (by omega : ¬(0 < 0)),
      Option.some.injEq] at hcs
    rw [← hcs]
    rfl
  · have hs : 0 < text.length := List.length_pos.mpr hne
    simp only [chunkTextLoop, if_pos hs] at hcs
    cases hcall : chunkTextLoop text.length text size overlap (0 + (size - overlap)) with
    | none => rw [hcall] at hcs; simp at hcs
    | some rest =>
      rw [hcall] at hcs
      have hchunk := stripNonempty_window text size 0 (by omega) hs hws
      rw [hchunk] at hcs
      simp only [if_true, Option.some.injEq] at hcs
      subst hcs
      have hrec := chunkTextLoop_reassemble text size overlap hov hws
        text.length (0 + (size - overlap)) rest hcall
      simp only [reassemble]
      rw [hrec, pySlice_window]
      have h1 : 0 + (size - overlap) + overlap = size := by omega
      rw [h1]
      simp [List.take_append_drop size text]

theorem chunk_text_reassembles_witness :
    (1 < 2 ∧ (∀ c ∈ "abc".data, c.isWhitespace = false) ∧
      chunk_text "abc".data 2 1 = some ["ab".data, "bc".data, "c".data]) ∧
    reassemble 1 ["ab".data, "bc".data, "c".data] = "abc".data :=
  ⟨⟨by decide, by decide, by decide⟩,
    chunk_text_reassembles "abc".data 2 1 (by decide) (by decide) _ (by decide)⟩

/-- C3 fails as stated: `_chunk_text` performs no validation at all — there is
no `InvalidArgument` (or any other) error path.  With `overlap = window = 2`
on the non-empty text `"ab"` the loop's step is zero and the loop never
terminates, so in particular it never raises. -/
theorem chunk_text_c3_counterexample : divergesAt "ab".data 2 2 :=
  fun fuel => chunkTextLoop_none_of_overlap_ge "ab".data 2 2 (by omega) (by decide) fuel

/-- C3 amended: the code does not reject `overlap ≥ window_size`; instead, for
every non-empty text the chunking loop fails to terminate (its step
`chunk_size - chunk_overlap` is not positive, so the window start never
advances past the end of the text). -/
theorem chunk_text_diverges_on_invalid_args (text : Str) (size overlap : Nat)
    (hov : size ≤ overlap) (hne : text ≠ []) :
    divergesAt text size overlap :=
  fun fuel => chunkTextLoop_none_of_overlap_ge text size overlap hov hne fuel

theorem chunk_text_diverges_on_invalid_args_witness :
    (2 ≤ 3 ∧ "a".data ≠ []) ∧ divergesAt "a".data 2 3 :=
  ⟨⟨by decide, by decide⟩,
    chunk_text_diverges_on_invalid_args "a".data 2 3 (by decide) (by decide)⟩

/-! ## MongoDB persistence layer — src/be_ai/core/MongoDB/db.py

`TitleDB`, `ChatDB` and `ContextDB` operate on three MongoDB collections.
We model the store as three lists of documents and each collection call as a
pure list operation:

* `insert_one`   — append the document to the collection;
* `find_one`     — first document matching the filter;
* `update_one`   — update the first document matching the filter;
* `delete_one`   — remove the first document matching the filter, reporting
                   whether one was removed (`deleted_count > 0`);
* `delete_many`  — remove every document matching the filter, reporting how
                   many were removed.

`datetime.utcnow()` readings and `uuid.uuid4()` draws are passed in as
explicit arguments (`now`, `newId`). -/

structure TitleDoc where
  id_title : String
  title : String
  create_at : Nat
  last_update : Nat
  deriving Repr, DecidableEq

structure ChatDoc where
  id_chat : String
  id_title : String
  create_at : Nat
  deriving Repr, DecidableEq

structure ContextDoc where
  id_chat : String
  id_context : String
  create_at : Nat
  context : String
  deriving Repr, DecidableEq

structure DBState where
  titles : List TitleDoc
  chats : List ChatDoc
  contexts : List ContextDoc
  deriving Repr, DecidableEq

/-- `collection.delete_one(filter)`: removes the first matching document;
the `Bool` is `deleted_count > 0`. -/
def deleteOne (p : α → Bool) : List α → Bool × List α
  | [] => (false, [])
  | x :: xs =>
    if p x then (true, xs)
    else
      let r := deleteOne p xs
      (r.1, x :: r.2)

/-- `collection.delete_many(filter)`: removes every matching document; the
`Nat` is `deleted_count`. -/
def deleteMany (p : α → Bool) (l : List α) : Nat × List α :=
  ((l.filter p).length, l.filter (fun x => !(p x)))

/-- `collection.update_one(filter, {"$set": ...})`: updates the first
matching document. -/
def updateOne (p : α → Bool) (f : α → α) : List α → List α
  | [] => []
  | x :: xs => if p x then f x :: xs else x :: updateOne p f xs

/-- `TitleDB.update(id_title, updates)`: always forces
`updates["last_update"] = utcnow()` and `$set`s the result onto the first
title with the given id.  `updates` is modelled as a record transformer. -/
def titleUpdate (s : DBState) (id_title : String) (updates : TitleDoc → TitleDoc)
    (now : Nat) : DBState :=
  { s with
    titles := updateOne (fun t => t.id_title == id_title)
                (fun t => { updates t with last_update := now }) s.titles }

/-- `ChatDB.get_by_id(id_chat)`: `find_one({"id_chat": id_chat})`. -/
def chatGetById (s : DBState) (id_chat : String) : Option ChatDoc :=
  s.chats.find? (fun c => c.id_chat == id_chat)

/-- `ChatDB.create(id_title)`: inserts a chat document, then bumps the owning
title's `last_update` via `TitleDB.update(id_title, {})`. -/
def chatCreate (s : DBState) (id_title : String) (newId : String) (now : Nat) :
    ChatDoc × DBState :=
  let chat_doc : ChatDoc := { id_chat := newId, id_title := id_title, create_at := now }
  let s1 := { s with chats := s.chats ++ [chat_doc] }
  (chat_doc, titleUpdate s1 id_title (fun t => t) now)

/-- `ContextDB.create(id_chat, context)`: inserts a context document, then —
if the referenced chat exists — bumps its title's `last_update`. -/
def contextCreate (s : DBState) (id_chat : String) (context : String)
    (newId : String) (now : Nat) : ContextDoc × DBState :=
  let context_doc : ContextDoc :=
    { id_chat := id_chat, id_context := newId, create_at := now, context := context }
  let s1 := { s with contexts := s.contexts ++ [context_doc] }
  let s2 :=
    match chatGetById s1 id_chat with
    | some chat => titleUpdate s1 chat.id_title (fun t => t) now
    | none => s1
  (context_doc, s2)

/-- `ContextDB.update(id_context, context)`: `$set`s only the `context` field
of the first matching context document; nothing else is touched. -/
def contextUpdate (s : DBState) (id_context : String) (context : String) : DBState :=
  { s with
    contexts := updateOne (fun c => c.id_context == id_context)
                  (fun c => { c with context := context }) s.contexts }

/-- `ContextDB.delete_by_chat(id_chat)`: `delete_many({"id_chat": id_chat})`. -/
def contextDeleteByChat (s : DBState) (id_chat : String) : Nat × DBState :=
  let r := deleteMany (fun c => c.id_chat == id_chat) s.contexts
  (r.1, { s with contexts := r.2 })

/-- `ChatDB.delete_by_title(id_title)`: collects the ids of all chats under
the title, deletes the contexts of each, then `delete_many`s the chats. -/
def chatDeleteByTitle (s : DBState) (id_title : String) : Nat × DBState :=
  let chat_ids := (s.chats.filter (fun c => c.id_title == id_title)).map
    (fun c => c.id_chat)
  let s1 := chat_ids.foldl (fun st cid => (contextDeleteByChat st cid).2) s
  let r := deleteMany (fun c => c.id_title == id_title) s1.chats
  (r.1, { s1 with chats := r.2 })

/-- `TitleDB.delete(id_title)`: `delete_one`s the title row, and only if a row
was removed cascades to `ChatDB.delete_by_title`; returns `deleted_count > 0`
of the title deletion. -/
def titleDelete (s : DBState) (id_title : String) : Bool × DBState :=
  let r := deleteOne (fun t => t.id_title == id_title) s.titles
  let s1 := { s with titles := r.2 }
  (r.1, if r.1 then (chatDeleteByTitle s1 id_title).2 else s1)

/-! ### Deletion order instrumentation

For the temporal claim about cascade order we re-run `TitleDB.delete` while
recording one event per collection write that removes rows, in the
chronological order the source issues them. -/

/-- One row-removing write issued during a cascade. -/
inductive DelEvent where
  /-- `Title.delete_one` removed the title row (db.py line 114). -/
  | titleRow (id_title : String)
  /-- `Context.delete_many` for one chat's contexts (db.py line 364). -/
  | contextRows (id_chat : String)
  /-- `Chat.delete_many` for the title's chats (db.py line 236). -/
  | chatRows (id_title : String)
  deriving Repr, DecidableEq

/-- `ChatDB.delete_by_title` with its writes logged in program order:
first each chat's contexts, then the chats themselves. -/
def chatDeleteByTitleTrace (s : DBState) (id_title : String) :
    (Nat × DBState) × List DelEvent :=
  let chat_ids := (s.chats.filter (fun c => c.id_title == id_title)).map
    (fun c => c.id_chat)
  let s1 := chat_ids.foldl (fun st cid => (contextDeleteByChat st cid).2) s
  let r := deleteMany (fun c => c.id_title == id_title) s1.chats
  ((r.1, { s1 with chats := r.2 }),
    chat_ids.map DelEvent.contextRows ++ [DelEvent.chatRows id_title])

/-- `TitleDB.delete` with its writes logged in program order: the
`delete_one` on the Title collection happens first (db.py line 114), the
cascade only afterwards (line 118). -/
def titleDeleteTrace (s : DBState) (id_title : String) :
    (Bool × DBState) × List DelEvent :=
  let r := deleteOne (fun t => t.id_title == id_title) s.titles
  let s1 := { s with titles := r.2 }
  if r.1 then
    let c := chatDeleteByTitleTrace s1 id_title
    ((true, c.1.2), DelEvent.titleRow id_title :: c.2)
  else
    ((false, s1), [])

/-- The temporal property claimed for the cascade: every removal of
descendant rows happens strictly before the removal of the title row,
i.e. the title-row event is the last event of the trace. -/
def titleRemovedLast (tr : List DelEvent) (id_title : String) : Prop :=
  ∀ i (hi : i < tr.length), tr.get ⟨i, hi⟩ = DelEvent.titleRow id_title →
    i = tr.length - 1

instance (tr : List DelEvent) (t : String) : Decidable (titleRemovedLast tr t) := by
  unfold titleRemovedLast
  infer_instance

/-! ### Persistence-layer lemmas -/

lemma deleteOne_fst (p : α → Bool) (l : List α) : (deleteOne p l).1 = l.any p := by
  induction l with
  | nil => rfl
  | cons x xs ih =>
    by_cases hx : p x
    · simp [deleteOne, hx]
    · simp [deleteOne, hx, ih]

lemma updateOne_exists (p : α → Bool) (f : α → α) (l : List α)
    (h : l.any p = true) :
    ∃ a ∈ l, p a = true ∧ f a ∈ updateOne p f l := by
  induction l with
  | nil => simp at h
  | cons x xs ih =>
    by_cases hx : p x
    · exact ⟨x, List.mem_cons_self x xs, hx, by simp [updateOne, hx]⟩
    · have hxs : xs.any p = true := by
        simpa [List.any_cons, hx] using h
      obtain ⟨a, ha, hpa, hfa⟩ := ih hxs
      exact ⟨a, List.mem_cons_of_mem x ha, hpa, by simp [updateOne, hx, hfa]⟩

/-- Surviving a `ContextDB.delete_by_chat` fold means surviving every single
deletion: the document was there before, and matches none of the chat ids. -/
lemma contexts_foldl_delete (ids : List String) :
    ∀ (s : DBState) (x : ContextDoc),
      x ∈ (ids.foldl (fun st cid => (contextDeleteByChat st cid).2) s).contexts →
      x ∈ s.contexts ∧ ∀ cid ∈ ids, (x.id_chat == cid) = false := by
  induction ids with
  | nil =>
    intro s x hx
    exact ⟨hx, by simp⟩
  | cons a rest ih =>
    intro s x hx
    rw [List.foldl_cons] at hx
    obtain ⟨hx1, hx2⟩ := ih _ x hx
    have hmem : x ∈ s.contexts ∧ (x.id_chat == a) = false := by
      simpa [contextDeleteByChat, deleteMany, List.mem_filter] using hx1
    refine ⟨hmem.1, fun cid hcid => ?_⟩
    rcases List.mem_cons.mp hcid with h | h
    · rw [h]; exact hmem.2
    · exact hx2 cid h

lemma chats_foldl_delete (ids : List String) :
    ∀ s : DBState,
      (ids.foldl (fun st cid => (contextDeleteByChat st cid).2) s).chats = s.chats := by
  induction ids with
  | nil => intro s; rfl
  | cons a rest ih => intro s; rw [List.foldl_cons, ih]; rfl

/-- The instrumented delete computes the same answer and state as the
uninstrumented one. -/
lemma titleDeleteTrace_fst (s : DBState) (t : String) :
    (titleDeleteTrace s t).1 = titleDelete s t := by
  unfold titleDeleteTrace titleDelete chatDeleteByTitleTrace chatDeleteByTitle
  by_cases h : (deleteOne (fun d => d.id_title == t) s.titles).1
  · simp [h]
  · simp [h]

/-- A one-title / one-chat / one-context store used to instantiate the
persistence-layer theorems on concrete data. -/
def demoState : DBState :=
  { titles := [{ id_title := "t", title := "T", create_at := 0, last_update := 0 }],
    chats := [{ id_chat := "c", id_title := "t", create_at := 0 }],
    contexts := [{ id_chat := "c", id_context := "x", create_at := 0, context := "old" }] }

/-! ### Claims about the persistence layer -/

/-- C1: if a Title `t` is present and chat `c` is one of its chats, then after
`TitleDB.delete(t)` the store holds no Chat with `id_title = t` and no
Context with `id_chat = c.id_chat`: the cascade removes all descendants. -/
theorem titleDelete_cascade (s : DBState) (t : String) (c : ChatDoc)
    (ht : s.titles.any (fun d => d.id_title == t) = true)
    (hc : c ∈ s.chats) (hct : c.id_title = t) :
    (titleDelete s t).2.chats.filter (fun d => d.id_title == t) = [] ∧
    (titleDelete s t).2.contexts.filter (fun d => d.id_chat == c.id_chat) = [] := by
  have hfound : (deleteOne (fun d => d.id_title == t) s.titles).1 = true := by
    rw [deleteOne_fst]; exact ht
  simp only [titleDelete, chatDeleteByTitle, hfound, if_true]
  constructor
  · rw [List.filter_eq_nil_iff]
    intro d hd
    simp only [deleteMany, List.mem_filter, Bool.not_eq_eq_eq_not, Bool.not_true] at hd
    simp [hd.2]
  · rw [List.filter_eq_nil_iff]
    intro x hx
    have hfold := contexts_foldl_delete _ _ x hx
    have hcid : c.id_chat ∈
        ((s.chats.filter (fun d => d.id_title == t)).map (fun d => d.id_chat)) := by
      exact List.mem_map_of_mem _ (List.mem_filter.mpr ⟨hc, by simp [hct]⟩)
    have := hfold.2 c.id_chat hcid
    simp [this]

theorem titleDelete_cascade_witness :
    (demoState.titles.any (fun d => d.id_title == "t") = true ∧
      ({ id_chat := "c", id_title := "t", create_at := 0 } : ChatDoc) ∈ demoState.chats) ∧
    ((titleDelete demoState "t").2.chats.filter (fun d => d.id_title == "t") = [] ∧
      (titleDelete demoState "t").2.contexts.filter (fun d => d.id_chat == "c") = []) :=
  ⟨⟨by decide, by decide⟩,
    titleDelete_cascade demoState "t" { id_chat := "c", id_title := "t", create_at := 0 }
      (by decide) (by decide) (by decide)⟩

/-- C4 fails as stated: `TitleDB.delete` removes the Title row *first*
(db.py line 114) and only then cascades to the descendants (line 118).  On a
store with title `t`, chat `c` and one context, the recorded write order is
`[titleRow, contextRows, chatRows]`, so the title-row removal is not last. -/
theorem titleDelete_c4_counterexample :
    (titleDeleteTrace demoState "t").2 =
      [DelEvent.titleRow "t", DelEvent.contextRows "c", DelEvent.chatRows "t"] ∧
    ¬ titleRemovedLast
      [DelEvent.titleRow "t", DelEvent.contextRows "c", DelEvent.chatRows "t"] "t" := by
  decide

/-- C4 amended: whenever the Title row exists, `TitleDB.delete` removes it
*first*, and only afterwards deletes each descendant chat's Contexts and then
the descendant Chats; the returned flag is the success of the Title-row
removal. -/
theorem titleDelete_trace_order (s : DBState) (t : String)
    (ht : s.titles.any (fun d => d.id_title == t) = true) :
    (titleDeleteTrace s t).1.1 = true ∧
    (titleDeleteTrace s t).2 =
      DelEvent.titleRow t ::
        ((s.chats.filter (fun c => c.id_title == t)).map
            (fun c => DelEvent.contextRows c.id_chat) ++ [DelEvent.chatRows t]) := by
  have hfound : (deleteOne (fun d => d.id_title == t) s.titles).1 = true := by
    rw [deleteOne_fst]; exact ht
  simp only [titleDeleteTrace, chatDeleteByTitleTrace, hfound, if_true]
  refine ⟨by simp, ?_⟩
  simp [List.map_map, Function.comp]

theorem titleDelete_trace_order_witness :
    demoState.titles.any (fun d => d.id_title == "t") = true ∧
    ((titleDeleteTrace demoState "t").1.1 = true ∧
      (titleDeleteTrace demoState "t").2 =
        DelEvent.titleRow "t" ::
          ((demoState.chats.filter (fun c => c.id_title == "t")).map
              (fun c => DelEvent.contextRows c.id_chat) ++ [DelEvent.chatRows "t"])) :=
  ⟨by decide, titleDelete_trace_order demoState "t" (by decide)⟩

/-- C5 fails as stated: `ContextDB.update` modifies only the context document
(db.py lines 329–332) — it contains no `TitleDB.update` call, so the owning
Title's `last_update` is not bumped.  On the demo store, updating the context
changes the Context collection but leaves the Title collection untouched. -/
theorem contextUpdate_c5_counterexample :
    (contextUpdate demoState "x" "new").titles = demoState.titles ∧
    (contextUpdate demoState "x" "new").contexts ≠ demoState.contexts := by
  decide

/-- C5 amended: creating a Chat bumps the owning Title's `last_update`, and
creating a Context bumps it too provided the referenced Chat exists; but
updating a Context leaves the Title collection entirely unchanged. -/
theorem last_update_bump (s : DBState) (t newId : String) (now : Nat)
    (cid ctx xid newCtx : String) (chat : ChatDoc) :
    (s.titles.any (fun d => d.id_title == t) = true →
      ∃ d ∈ ((chatCreate s t newId now).2).titles,
        d.id_title = t ∧ d.last_update = now) ∧
    (chatGetById s cid = some chat →
      s.titles.any (fun d => d.id_title == chat.id_title) = true →
      ∃ d ∈ ((contextCreate s cid ctx newId now).2).titles,
        d.id_title = chat.id_title ∧ d.last_update = now) ∧
    (contextUpdate s xid newCtx).titles = s.titles := by
  refine ⟨?_, ?_, rfl⟩
  · intro ht
    obtain ⟨a, ha, hpa, hfa⟩ := updateOne_exists (fun d => d.id_title == t)
      (fun d => { d with last_update := now }) s.titles ht
    exact ⟨_, hfa, by simpa using hpa, rfl⟩
  · intro hchat ht
    have hlook : chatGetById
        { s with contexts := s.contexts ++
            [{ id_chat := cid, id_context := newId, create_at := now, context := ctx }] }
        cid = some chat := hchat
    simp only [contextCreate]
    rw [hlook]
    obtain ⟨a, ha, hpa, hfa⟩ := updateOne_exists (fun d => d.id_title == chat.id_title)
      (fun d => { d with last_update := now }) s.titles ht
    exact ⟨_, hfa, by simpa using hpa, rfl⟩

theorem last_update_bump_witness :
    (∃ d ∈ ((chatCreate demoState "t" "c2" 5).2).titles,
      d.id_title = "t" ∧ d.last_update = 5) ∧
    (∃ d ∈ ((contextCreate demoState "c" "v" "x2" 7).2).titles,
      d.id_title = "t" ∧ d.last_update = 7) ∧
    (contextUpdate demoState "x" "w").titles = demoState.titles :=
  ⟨(last_update_bump demoState "t" "c2" 5 "c" "v" "x" "w"
      { id_chat := "c", id_title := "t", create_at := 0 }).1 (by decide),
    (last_update_bump demoState "t" "c2" 7 "c" "v" "x" "w"
      { id_chat := "c", id_title := "t", create_at := 0 }).2.1 (by decide) (by decide),
    (last_update_bump demoState "t" "c2" 5 "c" "v" "x" "w"
      { id_chat := "c", id_title := "t", create_at := 0 }).2.2⟩

/-! ## Flask message service — src/backend/app.py

The in-memory `chat_database` holds a list of conversation summaries and a
dict (insertion-ordered, modelled as an association list) from conversation id
to its message list. -/

structure Message where
  id : Str
  content : Str
  sender : Str
  timestamp : Str
  deriving Repr, DecidableEq

structure Conversation where
  id : Str
  title : Str
  lastMessage : Str
  timestamp : Str
  messageCount : Nat
  deriving Repr, DecidableEq

structure ChatDatabase where
  conversations : List Conversation
  messages : List (Str × List Message)
  deriving Repr, DecidableEq

/-- Python `str.strip()`: whitespace removed from both ends. -/
def pyStrip (s : Str) : Str :=
  ((s.dropWhile Char.isWhitespace).reverse.dropWhile Char.isWhitespace).reverse

/-- Python `str.lower()` (adequate for the ASCII data involved here). -/
def pyLower (s : Str) : Str := s.map Char.toLower

/-- Does `hay` start with `needle`? -/
def startsWithStr : Str → Str → Bool
  | _, [] => true
  | [], _ :: _ => false
  | h :: hs, n :: ns => h == n && startsWithStr hs ns

/-- Python `needle in hay`: substring containment. -/
def containsStr (hay needle : Str) : Bool :=
  match hay with
  | [] => startsWithStr [] needle
  | c :: hs => startsWithStr (c :: hs) needle || containsStr hs needle

/-- One entry of the `results` list built by `search_messages`. -/
structure SearchResult where
  conversationId : Str
  conversationTitle : Str
  messageId : Str
  content : Str
  sender : Str
  timestamp : Str
  deriving Repr, DecidableEq

/-- The JSON body returned by `/api/search`.  `query` and `total` are `Option`s
because the early empty-query return omits both keys. -/
structure SearchResponse where
  results : List SearchResult
  query : Option Str
  total : Option Nat
  status : Str
  deriving Repr, DecidableEq

/-- Lexicographic strict order on strings, as Python compares them. -/
def strLt : Str → Str → Bool
  | [], [] => false
  | [], _ :: _ => true
  | _ :: _, [] => false
  | a :: as, b :: bs => a < b || (a == b && strLt as bs)

/-- Stable insertion for a descending-by-timestamp sort. -/
def insertDesc (x : SearchResult) : List SearchResult → List SearchResult
  | [] => [x]
  | y :: ys => if strLt x.timestamp y.timestamp then y :: insertDesc x ys else x :: y :: ys

/-- `results.sort(key=lambda x: x["timestamp"], reverse=True)`: a stable sort,
newest timestamp first. -/
def sortByTimestampDesc (l : List SearchResult) : List SearchResult :=
  l.foldr insertDesc []

/-- `GET /api/search` (`search_messages`, app.py lines 267–306): normalises
the query with `strip().lower()`; an empty result short-circuits to
`{"results": [], "status": "success"}` (no `query`, no `total` key); otherwise
every stored message whose lowered content contains the query yields a result
row tagged with its conversation's title (or a placeholder), sorted newest
first, and `total` is the number of rows. -/
def search_messages (db : ChatDatabase) (q : Str) : SearchResponse :=
  let query := pyLower (pyStrip q)
  if query.isEmpty then
    { results := [], query := none, total := none, status := "success".data }
  else
    let results := db.messages.foldl
      (fun acc p =>
        let conversationTitle :=
          match db.conversations.find? (fun conv => conv.id == p.1) with
          | some conv => conv.title
          | none => "Unknown Conversation".data
        acc ++ (p.2.filter (fun m => containsStr (pyLower m.content) query)).map
          (fun m =>
            { conversationId := p.1, conversationTitle := conversationTitle,
              messageId := m.id, content := m.content, sender := m.sender,
              timestamp := m.timestamp }))
      []
    let sorted := sortByTimestampDesc results
    { results := sorted, query := some query, total := some sorted.length,
      status := "success".data }

/-- `POST /api/messages` (`create_message`, app.py lines 144–194).  Missing
`content` or `sender` is a 400 error; otherwise the message is appended under
`conversationId` (a fresh uuid when the key is absent), and the conversation
list is either given a brand-new synthesized record at the front (unseen id)
or the matching record's summary fields are mutated in place. -/
def create_message (db : ChatDatabase) (content sender : Str)
    (conversationId : Option Str) (newUuid : Str) (ts : Str) :
    Except Str (Message × ChatDatabase) :=
  if content.isEmpty || sender.isEmpty then
    .error "content and sender are required".data
  else
    let conversation_id := conversationId.getD newUuid
    let existing := (db.messages.lookup conversation_id).getD []
    let new_message : Message :=
      { id := "msg_".data ++ conversation_id ++ "_".data ++
          (Nat.repr (existing.length + 1)).data,
        content := content, sender := sender, timestamp := ts }
    let messages1 :=
      if (db.messages.lookup conversation_id).isSome then db.messages
      else db.messages ++ [(conversation_id, [])]
    let messages2 := messages1.map
      (fun p => if p.1 == conversation_id then (p.1, p.2 ++ [new_message]) else p)
    let conversation_exists := db.conversations.any (fun conv => conv.id == conversation_id)
    let conversations2 :=
      if !conversation_exists then
        ({ id := conversation_id,
           title := if content.length > 50 then content.take 50 ++ "...".data else content,
           lastMessage := content, timestamp := ts, messageCount := 1 } : Conversation)
          :: db.conversations
      else
        updateOne (fun conv => conv.id == conversation_id)
          (fun conv =>
            { conv with lastMessage := content, timestamp := ts,
                        messageCount := conv.messageCount + 1 })
          db.conversations
    .ok (new_message, { conversations := conversations2, messages := messages2 })

/-- A one-conversation fixture for the message-service theorems. -/
def demoConversation : Conversation :=
  { id := "conv_001".data
    title := "First".data
    lastMessage := "Hello MongoDB".data
    timestamp := "2024-10-25T10:30:00Z".data
    messageCount := 1 }

def demoMessage : Message :=
  { id := "msg_1".data
    content := "Hello MongoDB".data
    sender := "user".data
    timestamp := "2024-10-25T10:25:00Z".data }

def demoChatDb : ChatDatabase :=
  { conversations := [demoConversation]
    messages := [("conv_001".data, [demoMessage])] }

/-! ### Claims about the message service -/

/-- C7 fails as stated: for a blank query the handler short-circuits with
`jsonify({"results": [], "status": "success"})` — the response has *no*
`total` key at all (and no `query` key), rather than `total = 0`.  The
fixture store holds a message, so an empty result list also shows the blank
query did not match all messages. -/
theorem search_c7_counterexample :
    (search_messages demoChatDb "   ".data).results = [] ∧
    (search_messages demoChatDb "   ".data).total = none ∧
    (search_messages demoChatDb "   ".data).total ≠ some 0 ∧
    demoChatDb.messages ≠ [] := by
  decide

/-- C7 amended: a query that strips to the empty string short-circuits to a
success response whose `results` list is empty and which carries no `total`
(and no `query`) field; no message matching is attempted. -/
theorem search_empty_query (db : ChatDatabase) (q : Str) (h : pyStrip q = []) :
    (search_messages db q).results = [] ∧
    (search_messages db q).total = none ∧
    (search_messages db q).query = none ∧
    (search_messages db q).status = "success".data := by
  have hq : pyLower (pyStrip q) = [] := by rw [h]; rfl
  simp only [search_messages, hq]
  exact ⟨rfl, rfl, rfl, rfl⟩

theorem search_empty_query_witness :
    pyStrip " \t ".data = [] ∧
    ((search_messages demoChatDb " \t ".data).results = [] ∧
      (search_messages demoChatDb " \t ".data).total = none ∧
      (search_messages demoChatDb " \t ".data).query = none ∧
      (search_messages demoChatDb " \t ".data).status = "success".data) :=
  ⟨by decide, search_empty_query demoChatDb " \t ".data (by decide)⟩

/-- C9: posting a message under a conversation id no existing conversation
carries creates exactly one new Conversation record, prepended to the list,
with `messageCount = 1`, `title` equal to the content when it has at most 50
characters and to the first 50 characters followed by an ellipsis otherwise,
and summary fields taken from the new message. -/
theorem create_message_new_conversation (db : ChatDatabase) (content sender : Str)
    (cid newUuid ts : Str)
    (hcontent : content ≠ []) (hsender : sender ≠ [])
    (hunseen : ∀ conv ∈ db.conversations, (conv.id == cid) = false) :
    ∃ m db2, create_message db content sender (some cid) newUuid ts = .ok (m, db2) ∧
      db2.conversations =
        ({ id := cid,
           title := if content.length > 50 then content.take 50 ++ "...".data else content,
           lastMessage := content, timestamp := ts, messageCount := 1 } : Conversation)
          :: db.conversations := by
  have h1 : (content.isEmpty || sender.isEmpty) = false := by
    cases content with
    | nil => exact absurd rfl hcontent
    | cons c cs =>
      cases sender with
      | nil => exact absurd rfl hsender
      | cons d ds => rfl
  have h2 : (db.conversations.any fun conv => conv.id == cid) = false :=
    List.any_eq_false.mpr (fun conv hconv => by simp [hunseen conv hconv])
  simp only [create_message, h1, Option.getD_some, Bool.false_eq_true, if_false, h2,
    Bool.not_false, if_true]
  exact ⟨_, _, rfl, rfl⟩

theorem create_message_new_conversation_witness :
    ("Hello".data ≠ [] ∧ "user".data ≠ [] ∧
      (∀ conv ∈ demoChatDb.conversations, (conv.id == "conv_new".data) = false)) ∧
    (∃ m db2,
      create_message demoChatDb "Hello".data "user".data (some "conv_new".data)
          "u1".data "2024-10-26T00:00:00Z".data = .ok (m, db2) ∧
      db2.conversations =
        ({ id := "conv_new".data,
           title := if "Hello".data.length > 50
             then "Hello".data.take 50 ++ "...".data else "Hello".data,
           lastMessage := "Hello".data, timestamp := "2024-10-26T00:00:00Z".data,
           messageCount := 1 } : Conversation) :: demoChatDb.conversations) :=
  ⟨⟨by decide, by decide, by decide⟩,
    create_message_new_conversation demoChatDb "Hello".data "user".data
      "conv_new".data "u1".data "2024-10-26T00:00:00Z".data
      (by decide) (by decide) (by decide)⟩

/-! ## Gemini service — src/backend/gemini_service.py

`GeminiService.get_response` runs a try-block that configures the hosted
model, builds a prompt from the mode's system template and up to the last 10
history turns, and calls `model.generate_content`.  The whole external call —
including any exception raised anywhere in the try-block — is abstracted as a
function `upstream : Str → Option Str`; `none` stands for a raised exception
and routes to the except-handler's mode-specific fallback table. -/

def math_prompt : Str :=
  ("You are N0b0dy, an expert mathematics tutor. Your role is to:\n" ++
   "- Help students understand mathematical concepts step by step\n" ++
   "- Provide clear explanations with examples\n" ++
   "- Break down complex problems into manageable steps\n" ++
   "- Use appropriate mathematical notation and terminology\n" ++
   "- Encourage learning and build confidence\n" ++
   "- Always show your work and explain your reasoning\n" ++
   "- Be patient and supportive in your teaching approach").data

def english_prompt : Str :=
  ("You are N0b0dy, an expert English language teacher. Your role is to:\n" ++
   "- Help students improve their English language skills\n" ++
   "- Explain grammar rules clearly with examples\n" ++
   "- Provide vocabulary definitions and usage examples\n" ++
   "- Help with pronunciation, writing, and communication\n" ++
   "- Correct mistakes gently and explain why\n" ++
   "- Encourage practice and provide constructive feedback\n" ++
   "- Use appropriate teaching methods for different skill levels\n" ++
   "- Be encouraging and supportive in your approach").data

def history_prompt : Str :=
  ("You are N0b0dy, an expert history teacher. Your role is to:\n" ++
   "- Help students understand historical events and their significance\n" ++
   "- Provide context and background information\n" ++
   "- Explain cause-and-effect relationships in history\n" ++
   "- Discuss different perspectives and interpretations\n" ++
   "- Connect historical events to modern times\n" ++
   "- Use engaging storytelling techniques\n" ++
   "- Encourage critical thinking about historical sources\n" ++
   "- Make history relevant and interesting for students").data

def general_prompt : Str :=
  ("You are N0b0dy, a helpful AI assistant. Your role is to:\n" ++
   "- Provide accurate and helpful information\n" ++
   "- Answer questions clearly and comprehensively\n" ++
   "- Be friendly and approachable in your responses\n" ++
   "- Offer practical advice and solutions\n" ++
   "- Maintain a professional yet conversational tone\n" ++
   "- Help users with a wide variety of topics\n" ++
   "- Be honest about limitations when you don't know something").data

/-- `self.system_prompts`. -/
def system_prompts : List (Str × Str) :=
  [("math".data, math_prompt), ("english".data, english_prompt),
   ("history".data, history_prompt), ("general".data, general_prompt)]

/-- The `fallback_responses` dict built in the except-handler, with
`user_message` interpolated as by the source's f-strings. -/
def fallback_responses (user_message : Str) : List (Str × Str) :=
  [("math".data,
    "I apologize, but I'm having trouble accessing the math tutoring system right now. However, I'd be happy to help you with your math question: '".data
      ++ user_message ++ "'. Could you please try again in a moment?".data),
   ("english".data,
    "I'm experiencing some technical difficulties with the English teaching system. Your question about '".data
      ++ user_message ++ "' is important to me. Please try again shortly.".data),
   ("history".data,
    "I'm having trouble accessing the history teaching resources at the moment. Your question about '".data
      ++ user_message ++ "' deserves a proper historical perspective. Please try again soon.".data),
   ("general".data,
    "I'm experiencing some technical issues right now, but I want to help you with '".data
      ++ user_message ++ "'. Please try again in a moment.".data)]

/-- `GeminiService.get_response(user_message, mode, conversation_history)`. -/
def get_response (upstream : Str → Option Str) (user_message mode : Str)
    (conversation_history : List Message) : Str :=
  let system_prompt := (system_prompts.lookup mode).getD general_prompt
  let prompt :=
    if conversation_history.isEmpty then
      system_prompt ++ "\n\nUser: ".data ++ user_message ++ "\nN0b0dy:".data
    else
      (conversation_history.drop (conversation_history.length - 10)).foldl
        (fun ctx msg =>
          ctx ++ (if msg.sender == "user".data then "User".data else "N0b0dy".data)
            ++ ": ".data ++ msg.content ++ "\n".data)
        (system_prompt ++ "\n\nConversation History:\n".data)
        ++ "\nCurrent User Message: ".data ++ user_message
  match upstream prompt with
  | some text => pyStrip text
  | none =>
    ((fallback_responses user_message).lookup mode).getD
      "I'm having technical difficulties. Please try again later.".data

/-- Splitting a concatenation around an interpolated message: used to exhibit
the echoed message and the retry phrase inside a fallback string. -/
lemma append_split (A B C D msg ta : Str) (h : B = C ++ (ta ++ D)) :
    A ++ (msg ++ B) = (A ++ (msg ++ C)) ++ (ta ++ D) := by
  subst h
  simp [List.append_assoc]

/-! ### Claim about the failure fallback -/

/-- C8: for each of the four modes, when the upstream generation call fails,
`get_response` returns the deterministic mode-specific fallback string — a
total function of the inputs, so nothing escapes this boundary — and that
string both echoes the user's message and asks the user to try again. -/
theorem get_response_fallback (user_message mode : Str) (hist : List Message)
    (hmode : mode ∈ ["math".data, "english".data, "history".data, "general".data]) :
    get_response (fun _ => none) user_message mode hist =
      ((fallback_responses user_message).lookup mode).getD
        "I'm having technical difficulties. Please try again later.".data ∧
    (∃ pre suf, get_response (fun _ => none) user_message mode hist =
      pre ++ (user_message ++ suf)) ∧
    (∃ pre suf, get_response (fun _ => none) user_message mode hist =
      pre ++ ("try again".data ++ suf)) := by
  fin_cases hmode
  · refine ⟨rfl, ⟨"I apologize, but I'm having trouble accessing the math tutoring system right now. However, I'd be happy to help you with your math question: '".data, "'. Could you please try again in a moment?".data, rfl⟩, ?_⟩
    exact ⟨_, _, append_split
      "I apologize, but I'm having trouble accessing the math tutoring system right now. However, I'd be happy to help you with your math question: '".data
      "'. Could you please try again in a moment?".data
      "'. Could you please ".data " in a moment?".data
      user_message "try again".data (by decide)⟩
  · refine ⟨rfl, ⟨"I'm experiencing some technical difficulties with the English teaching system. Your question about '".data, "' is important to me. Please try again shortly.".data, rfl⟩, ?_⟩
    exact ⟨_, _, append_split
      "I'm experiencing some technical difficulties with the English teaching system. Your question about '".data
      "' is important to me. Please try again shortly.".data
      "' is important to me. Please ".data " shortly.".data
      user_message "try again".data (by decide)⟩
  · refine ⟨rfl, ⟨"I'm having trouble accessing the history teaching resources at the moment. Your question about '".data, "' deserves a proper historical perspective. Please try again soon.".data, rfl⟩, ?_⟩
    exact ⟨_, _, append_split
      "I'm having trouble accessing the history teaching resources at the moment. Your question about '".data
      "' deserves a proper historical perspective. Please try again soon.".data
      "' deserves a proper historical perspective. Please ".data " soon.".data
      user_message "try again".data (by decide)⟩
  · refine ⟨rfl, ⟨"I'm experiencing some technical issues right now, but I want to help you with '".data, "'. Please try again in a moment.".data, rfl⟩, ?_⟩
    exact ⟨_, _, append_split
      "I'm experiencing some technical issues right now, but I want to help you with '".data
      "'. Please try again in a moment.".data
      "'. Please ".data " in a moment.".data
      user_message "try again".data (by decide)⟩

theorem get_response_fallback_witness :
    "math".data ∈ ["math".data, "english".data, "history".data, "general".data] ∧
    (get_response (fun _ => none) "2+2".data "math".data [] =
        ((fallback_responses "2+2".data).lookup "math".data).getD
          "I'm having technical difficulties. Please try again later.".data ∧
      (∃ pre suf, get_response (fun _ => none) "2+2".data "math".data [] =
        pre ++ ("2+2".data ++ suf)) ∧
      (∃ pre suf, get_response (fun _ => none) "2+2".data "math".data [] =
        pre ++ ("try again".data ++ suf))) :=
  ⟨by decide, get_response_fallback "2+2".data "math".data [] (by decide)⟩

end N0body
